import Mathlib

/-!
Shallow embedding of the claim-classification and verification core of
`sovereign_reasoning_engine.py` (Sovrenmirror/sovrenai-workbench).

Texts are modelled as `List Char` (Python `str` over the ASCII inputs the
engine handles). Every float in the engine is a literal decimal constant
that is only ever copied or compared, never arithmetically combined (the
single float multiplication, `len * 0.6` in `check_truth_floor`, is
discussed at `floorAccepts`); we therefore model confidence values as exact
integer hundredths (`0.85` ↦ `85`) and resistance values as exact integer
thousandths (`0.001` ↦ `1`), which preserves all equalities and
comparisons.
-/

namespace Sovereign

/-- A piece of text, Python `str` as a list of characters. -/
abbrev Text := List Char

/-- Coerce a Lean string literal to a `Text`. -/
def strL (s : String) : Text := s.data

/-- Python `str.lower()` (the engine's inputs and tables are ASCII, where
`Char.toLower` agrees with Python's lowercasing). -/
def lower (t : Text) : Text := t.map Char.toLower

/-- `startsWithL n h`: `n` is a leading segment of `h`. -/
def startsWithL : Text → Text → Bool
  | [], _ => true
  | _ :: _, [] => false
  | a :: xs, b :: ys => a == b && startsWithL xs ys

/-- Python `needle in hay` substring test. -/
def containsSub (needle : Text) : Text → Bool
  | [] => startsWithL needle []
  | c :: rest => startsWithL needle (c :: rest) || containsSub needle rest

/-- Helper for `splitWS`: accumulates the current word reversed. -/
def splitWSAux : Text → Text → List Text
  | [], acc => if acc.isEmpty then [] else [acc.reverse]
  | c :: rest, acc =>
    if c.isWhitespace then
      if acc.isEmpty then splitWSAux rest [] else acc.reverse :: splitWSAux rest []
    else splitWSAux rest (c :: acc)

/-- Python `str.split()`: split on whitespace runs, dropping empty pieces. -/
def splitWS (t : Text) : List Text := splitWSAux t []

/-!
## Truth Floor (`TRUTH_FLOOR`, `check_truth_floor`)
-/

/-- The 12 immutable statements of the `TRUTH_FLOOR` tuple, in source order. -/
def TRUTH_FLOOR : List Text :=
  [ strL "This statement exists",
    strL "A and not-A cannot both be true in the same context",
    strL "Energy is conserved",
    strL "c = 299792458 m/s in vacuum",
    strL "E = hν",
    strL "π is transcendental",
    strL "e is transcendental",
    strL "Every integer greater than 1 has unique prime factorization",
    strL "Shannon entropy of any message is >= 0",
    strL "Entropy of an isolated system never decreases",
    strL "An unknown quantum state cannot be perfectly cloned",
    strL "Verifying the Truth Floor adds zero net friction" ]

/-- The stop words removed from a floor statement's word set in
`check_truth_floor`. -/
def STOP_WORDS : List Text :=
  [strL "the", strL "a", strL "is", strL "of", strL "in", strL "to", strL "and", strL "an"]

/-- `set(axiom.lower().split()) - {stop words}` from `check_truth_floor`:
the statement's deduplicated lowercased words minus the stop words.
(A Python set; only membership and cardinality of this collection are used,
so a duplicate-free list is a faithful model.) -/
def floorKeywords (ax : Text) : List Text :=
  ((splitWS (lower ax)).dedup).filter (fun w => !(STOP_WORDS.contains w))

/-- `sum(1 for w in axiom_words if w in claim_lower)` from `check_truth_floor`. -/
def floorMatchCount (ax claimLower : Text) : Nat :=
  ((floorKeywords ax).filter (fun w => containsSub w claimLower)).length

/-- `matches >= len(axiom_words) * 0.6` from `check_truth_floor`.
For every keyword-set size occurring in the registry (2, 3, 5, 6, 7, 9)
the IEEE-double comparison against `len * 0.6` coincides with the exact
rational comparison `5 * matches ≥ 3 * len`, which is what we use. -/
def floorAccepts (ax claimLower : Text) : Bool :=
  decide (3 * (floorKeywords ax).length ≤ 5 * floorMatchCount ax claimLower)

/-- The loop of `check_truth_floor`: first statement accepted, in order. -/
def checkFloorList : List Text → Text → Option Text
  | [], _ => none
  | ax :: rest, cl => if floorAccepts ax cl then some ax else checkFloorList rest cl

/-- `check_truth_floor(claim)`: the first Truth Floor statement whose
keyword set is at least 60% present (as substrings) in the lowercased claim. -/
def check_truth_floor (claim : Text) : Option Text :=
  checkFloorList TRUTH_FLOOR (lower claim)

/-- Acceptance as the specification words it: at least 60% of the
statement's keywords are present in the lowercased claim. Stated over exact
rationals; compared against the source-side `floorAccepts`. -/
def specFloorAccepts (ax claimLower : Text) : Bool :=
  decide ((0.6 : ℚ) * ((floorKeywords ax).length : ℚ) ≤
    (floorMatchCount ax claimLower : ℚ))

/-!
## Truth tiers and the Truth Token Ontology table
-/

/-- The 13-member `TruthTier` enum. -/
inductive TruthTier
  | T0_AXIOMATIC
  | T1_MATHEMATICAL
  | T2_LOGICAL
  | T3_EMPIRICAL_STABLE
  | T4_EMPIRICAL_MEASURED
  | T5_DOCUMENTARY
  | T6_CONTEXTUAL
  | T7_TEMPORAL
  | T8_TESTIMONIAL
  | T9_SOCIAL
  | T10_COGNITIVE
  | T11_SPECULATIVE
  | T12_INTEGRITY
deriving DecidableEq

/-- `TruthTier.tier_num` (first component of each enum value). -/
def TruthTier.tier_num : TruthTier → Int
  | .T0_AXIOMATIC => 0
  | .T1_MATHEMATICAL => 1
  | .T2_LOGICAL => 2
  | .T3_EMPIRICAL_STABLE => 3
  | .T4_EMPIRICAL_MEASURED => 4
  | .T5_DOCUMENTARY => 5
  | .T6_CONTEXTUAL => 6
  | .T7_TEMPORAL => 7
  | .T8_TESTIMONIAL => 8
  | .T9_SOCIAL => 9
  | .T10_COGNITIVE => 10
  | .T11_SPECULATIVE => 11
  | .T12_INTEGRITY => 12

/-- `TruthTier.tier_name` (second component of each enum value). -/
def TruthTier.tier_name : TruthTier → String
  | .T0_AXIOMATIC => "Axiomatic"
  | .T1_MATHEMATICAL => "Mathematical"
  | .T2_LOGICAL => "Logical"
  | .T3_EMPIRICAL_STABLE => "Empirical-Stable"
  | .T4_EMPIRICAL_MEASURED => "Empirical-Measured"
  | .T5_DOCUMENTARY => "Documentary"
  | .T6_CONTEXTUAL => "Contextual"
  | .T7_TEMPORAL => "Temporal"
  | .T8_TESTIMONIAL => "Testimonial"
  | .T9_SOCIAL => "Social/Consensus"
  | .T10_COGNITIVE => "Cognitive/Subjective"
  | .T11_SPECULATIVE => "Speculative"
  | .T12_INTEGRITY => "Integrity Violation"

/-- `TruthTier.resistance` (third component), in exact thousandths:
`0.000 ↦ 0`, `0.001 ↦ 1`, …, `1.000 ↦ 1000`. -/
def TruthTier.resistance : TruthTier → Nat
  | .T0_AXIOMATIC => 0
  | .T1_MATHEMATICAL => 1
  | .T2_LOGICAL => 5
  | .T3_EMPIRICAL_STABLE => 10
  | .T4_EMPIRICAL_MEASURED => 30
  | .T5_DOCUMENTARY => 50
  | .T6_CONTEXTUAL => 80
  | .T7_TEMPORAL => 120
  | .T8_TESTIMONIAL => 180
  | .T9_SOCIAL => 250
  | .T10_COGNITIVE => 350
  | .T11_SPECULATIVE => 500
  | .T12_INTEGRITY => 1000

/-- The 13 tiers in declaration order; position in this list is the rank. -/
def tierList : List TruthTier :=
  [.T0_AXIOMATIC, .T1_MATHEMATICAL, .T2_LOGICAL, .T3_EMPIRICAL_STABLE,
   .T4_EMPIRICAL_MEASURED, .T5_DOCUMENTARY, .T6_CONTEXTUAL, .T7_TEMPORAL,
   .T8_TESTIMONIAL, .T9_SOCIAL, .T10_COGNITIVE, .T11_SPECULATIVE, .T12_INTEGRITY]

/-- Tier of a given rank in `0..12`. -/
def tierOfRank (i : Fin 13) : TruthTier := tierList.getD i.val .T0_AXIOMATIC

/-- The `TruthToken` dataclass. -/
structure TruthToken where
  symbol : String
  tier : TruthTier
  name : String
  definition : String
  keywords : List Text
deriving DecidableEq

/-- The `TTO_TOKENS` dict, in insertion order (Python dicts preserve
insertion order; the dict key always equals the token's `symbol` field). -/
def TTO_TOKENS : List TruthToken :=
  [ ⟨"TautologyTT", .T0_AXIOMATIC, "Tautology", "Self-evidently true",
      [strL "tautology", strL "by definition", strL "necessarily"]⟩,
    ⟨"ExistenceTT", .T0_AXIOMATIC, "Existence", "Existence claim",
      [strL "exists", strL "there is", strL "being"]⟩,
    ⟨"IdentityTT", .T0_AXIOMATIC, "Identity", "A = A",
      [strL "identical", strL "same as", strL "equals itself"]⟩,
    ⟨"MathematicalTT", .T1_MATHEMATICAL, "Mathematical", "Provable calculation",
      [strL "equals", strL "sum", strL "calculate", strL "compute", strL "math",
       strL "+", strL "-", strL "*", strL "/", strL "="]⟩,
    ⟨"PhysicalConstantTT", .T1_MATHEMATICAL, "Physical Constant", "Defined constant",
      [strL "speed of light", strL "planck", strL "constant", strL "c =", strL "π",
       strL "299792458"]⟩,
    ⟨"DefinitionalTT", .T1_MATHEMATICAL, "Definitional", "True by definition",
      [strL "defined as", strL "by definition", strL "means"]⟩,
    ⟨"DeductiveTT", .T2_LOGICAL, "Deductive", "Valid deduction",
      [strL "therefore", strL "thus", strL "hence", strL "it follows"]⟩,
    ⟨"SyllogisticTT", .T2_LOGICAL, "Syllogistic", "Syllogism",
      [strL "all", strL "some", strL "no", strL "if then"]⟩,
    ⟨"BinaryLogicalTT", .T2_LOGICAL, "Binary Logic", "Boolean logic",
      [strL "and", strL "or", strL "not", strL "xor", strL "implies"]⟩,
    ⟨"ScientificLawTT", .T3_EMPIRICAL_STABLE, "Scientific Law", "Established law",
      [strL "law of", strL "always", strL "never", strL "universal"]⟩,
    ⟨"UniversalTT", .T3_EMPIRICAL_STABLE, "Universal Fact", "Universal truth",
      [strL "everywhere", strL "all", strL "every", strL "always"]⟩,
    ⟨"AtomicFactTT", .T3_EMPIRICAL_STABLE, "Atomic Fact", "Simple verifiable fact",
      [strL "is", strL "has", strL "contains"]⟩,
    ⟨"EmpiricalTT", .T4_EMPIRICAL_MEASURED, "Empirical", "From observation",
      [strL "observed", strL "measured", strL "experiment"]⟩,
    ⟨"StatisticalTT", .T4_EMPIRICAL_MEASURED, "Statistical", "Statistical finding",
      [strL "average", strL "mean", strL "percent", strL "correlation"]⟩,
    ⟨"MeasurementTT", .T4_EMPIRICAL_MEASURED, "Measurement", "Quantified value",
      [strL "measured", strL "reading", strL "value"]⟩,
    ⟨"DocumentaryTT", .T5_DOCUMENTARY, "Documentary", "Documented evidence",
      [strL "document", strL "record", strL "certificate"]⟩,
    ⟨"CitationTT", .T5_DOCUMENTARY, "Citation", "Cited source",
      [strL "according to", strL "cited", strL "reference"]⟩,
    ⟨"HistoricalTT", .T5_DOCUMENTARY, "Historical", "Historical fact",
      [strL "in history", strL "historically", strL "year", strL "century"]⟩,
    ⟨"ContextualTT", .T6_CONTEXTUAL, "Contextual", "Context-dependent",
      [strL "in context", strL "depending on", strL "within"]⟩,
    ⟨"DomainSpecificTT", .T6_CONTEXTUAL, "Domain-Specific", "Field-specific",
      [strL "in medicine", strL "in law", strL "technically"]⟩,
    ⟨"ConditionalTT", .T6_CONTEXTUAL, "Conditional", "If-then truth",
      [strL "if", strL "when", strL "provided that"]⟩,
    ⟨"CurrentTT", .T7_TEMPORAL, "Current", "Present state",
      [strL "currently", strL "now", strL "at present", strL "today"]⟩,
    ⟨"PredictiveTT", .T7_TEMPORAL, "Predictive", "Future prediction",
      [strL "will", strL "forecast", strL "expect", strL "predict"]⟩,
    ⟨"TrendTT", .T7_TEMPORAL, "Trend", "Trend observation",
      [strL "trend", strL "rising", strL "falling", strL "increasing"]⟩,
    ⟨"TestimonialTT", .T8_TESTIMONIAL, "Testimonial", "Someone\x27s claim",
      [strL "said", strL "claims", strL "testified", strL "reported"]⟩,
    ⟨"ExpertOpinionTT", .T8_TESTIMONIAL, "Expert Opinion", "Expert says",
      [strL "expert", strL "scientist says", strL "doctor says"]⟩,
    ⟨"HearsayTT", .T8_TESTIMONIAL, "Hearsay", "Second-hand report",
      [strL "heard that", strL "supposedly", strL "allegedly"]⟩,
    ⟨"ConsensusTT", .T9_SOCIAL, "Consensus", "Group agreement",
      [strL "consensus", strL "most agree", strL "widely accepted"]⟩,
    ⟨"CulturalTT", .T9_SOCIAL, "Cultural", "Cultural norm",
      [strL "culture", strL "tradition", strL "custom"]⟩,
    ⟨"NormativeTT", .T9_SOCIAL, "Normative", "Should/ought claim",
      [strL "should", strL "ought", strL "must", strL "need to"]⟩,
    ⟨"OpinionTT", .T10_COGNITIVE, "Opinion", "Personal view",
      [strL "i think", strL "in my opinion", strL "i believe"]⟩,
    ⟨"BeliefTT", .T10_COGNITIVE, "Belief", "Belief statement",
      [strL "believe", strL "faith", strL "conviction"]⟩,
    ⟨"PreferenceTT", .T10_COGNITIVE, "Preference", "Personal preference",
      [strL "prefer", strL "like", strL "favorite"]⟩,
    ⟨"IntrospectiveTT", .T10_COGNITIVE, "Introspective", "Self-knowledge",
      [strL "i feel", strL "i am", strL "i want"]⟩,
    ⟨"SpeculativeTT", .T11_SPECULATIVE, "Speculative", "Speculation",
      [strL "maybe", strL "perhaps", strL "might", strL "possibly", strL "could be",
       strL "aliens"]⟩,
    ⟨"HypotheticalTT", .T11_SPECULATIVE, "Hypothetical", "What-if scenario",
      [strL "what if", strL "hypothetically", strL "imagine", strL "suppose"]⟩,
    ⟨"UncertainTT", .T11_SPECULATIVE, "Uncertain", "Unknown status",
      [strL "uncertain", strL "unclear", strL "unknown", strL "not sure"]⟩,
    ⟨"FalseTT", .T12_INTEGRITY, "False", "Demonstrably false",
      [strL "false", strL "wrong", strL "incorrect", strL "untrue"]⟩,
    ⟨"MisleadingTT", .T12_INTEGRITY, "Misleading", "Technically true but misleading",
      [strL "misleading", strL "deceptive", strL "spin"]⟩,
    ⟨"PropagandaTT", .T12_INTEGRITY, "Propaganda", "Manipulative content",
      [strL "propaganda", strL "manipulate", strL "brainwash"]⟩,
    ⟨"ContradictoryTT", .T12_INTEGRITY, "Contradictory", "Self-contradicting",
      [strL "contradict", strL "inconsistent", strL "paradox"]⟩ ]

/-!
## Regular-expression engine

The detector's patterns use only: word boundaries `\b`, literal runs,
alternations of literal strings, the classes `\d` `\w` `\s`, an explicit
character set, the quantifiers `+` `*` on a class, and an optional single
character (`s?`). We model exactly those constructs and give them
`re.search` semantics (an un-anchored match exists somewhere in the text).
-/

/-- A character class. -/
inductive CClass
  | digit
  | word
  | space
  | anyOf (cs : List Char)
deriving DecidableEq

/-- Membership in a class. `\w` and `\d` over the engine's ASCII inputs. -/
def CClass.test : CClass → Char → Bool
  | .digit, c => c.isDigit
  | .word, c => c.isAlphanum || c == '_'
  | .space, c => c.isWhitespace
  | .anyOf cs, c => cs.contains c

/-- One item of a (flat) regular expression. -/
inductive RItem
  | lit (s : Text)
  | alt (ss : List Text)
  | wb
  | many1 (c : CClass)
  | many0 (c : CClass)
  | one (c : CClass)
  | opt (ch : Char)
deriving DecidableEq

/-- A pattern is a sequence of items. -/
abbrev Pattern := List RItem

/-- Whether an optional character counts as a word character for `\b`
(absent characters at the ends of the text do not). -/
def isWordOpt : Option Char → Bool
  | none => false
  | some c => CClass.word.test c

/-- All states (last consumed char, remaining text) reachable by consuming
zero or more characters of class `p` from the front. -/
def classSplits (p : CClass) (prev : Option Char) : Text → List (Option Char × Text)
  | [] => [(prev, [])]
  | c :: rest =>
    (prev, c :: rest) :: (if p.test c then classSplits p (some c) rest else [])

/-- States reachable by matching one item. -/
def matchItem (it : RItem) (prev : Option Char) (l : Text) :
    List (Option Char × Text) :=
  match it with
  | .lit s =>
      if startsWithL s l then
        [(if s.isEmpty then prev else s.getLast?, l.drop s.length)]
      else []
  | .alt ss =>
      ss.flatMap (fun s =>
        if startsWithL s l then
          [(if s.isEmpty then prev else s.getLast?, l.drop s.length)]
        else [])
  | .wb => if isWordOpt prev != isWordOpt l.head? then [(prev, l)] else []
  | .many1 p =>
      match l with
      | [] => []
      | c :: rest => if p.test c then classSplits p (some c) rest else []
  | .many0 p => classSplits p prev l
  | .one p =>
      match l with
      | [] => []
      | c :: rest => if p.test c then [(some c, rest)] else []
  | .opt ch =>
      (prev, l) :: (match l with
        | [] => []
        | c :: rest => if c == ch then [(some c, rest)] else [])

/-- Whether the pattern matches a leading segment of `l`, with `prev` the
character just before `l` in the surrounding text. -/
def matchPat : Pattern → Option Char → Text → Bool
  | [], _, _ => true
  | it :: rest, prev, l =>
    (matchItem it prev l).any (fun st => matchPat rest st.1 st.2)

/-- Try the pattern at every start position of `l`. -/
def searchFrom (pat : Pattern) (prev : Option Char) : Text → Bool
  | [] => matchPat pat prev []
  | c :: rest => matchPat pat prev (c :: rest) || searchFrom pat (some c) rest

/-- `re.search(pattern, text)` truthiness. -/
def reSearch (pat : Pattern) (t : Text) : Bool := searchFrom pat none t

/-!
## Epistemic subject detection

The five pattern groups of `EpistemicSubjectDetector`, transliterated.
`(shows?|indicates?|suggests?)` is encoded as `(show|indicate|suggest)s?`,
which denotes the same language.
-/

/-- `INTROSPECTIVE_PATTERNS`. -/
def INTROSPECTIVE_PATTERNS : List Pattern :=
  [ [.wb, .lit (strL "i"), .many1 .space,
      .alt [strL "feel", strL "think", strL "believe", strL "want", strL "like",
            strL "hate", strL "love", strL "prefer", strL "know", strL "remember"], .wb],
    [.wb, .lit (strL "my"), .many1 .space,
      .alt [strL "opinion", strL "view", strL "feeling", strL "experience",
            strL "belief"], .wb],
    [.wb, .lit (strL "to me"), .wb],
    [.wb, .lit (strL "for me"), .wb],
    [.wb, .lit (strL "i\x27m"), .many1 .space,
      .alt [strL "sure", strL "certain", strL "convinced"], .wb] ]

/-- `TESTIMONIAL_PATTERNS`. -/
def TESTIMONIAL_PATTERNS : List Pattern :=
  [ [.wb, .alt [strL "he", strL "she", strL "they", strL "it"], .many1 .space,
      .alt [strL "said", strL "told", strL "claimed", strL "stated", strL "believes",
            strL "thinks"], .wb],
    [.wb, .lit (strL "according to"), .wb],
    [.wb, .many1 .word, .many1 .space, .lit (strL "says"), .wb],
    [.wb, .lit (strL "reportedly"), .wb],
    [.wb, .lit (strL "allegedly"), .wb] ]

/-- `AUTHORITY_PATTERNS`. -/
def AUTHORITY_PATTERNS : List Pattern :=
  [ [.wb, .lit (strL "scientist"), .opt 's', .many1 .space,
      .alt [strL "say", strL "believe", strL "found", strL "discovered"], .wb],
    [.wb, .lit (strL "research"), .many1 .space,
      .alt [strL "show", strL "indicate", strL "suggest"], .opt 's', .wb],
    [.wb, .lit (strL "expert"), .opt 's', .many1 .space,
      .alt [strL "say", strL "believe", strL "agree"], .wb],
    [.wb, .lit (strL "the"), .many1 .space, .lit (strL "study"), .many1 .space,
      .alt [strL "found", strL "shows", strL "indicates"], .wb] ]

/-- `APRIORI_PATTERNS`. -/
def APRIORI_PATTERNS : List Pattern :=
  [ [.wb, .many1 .digit, .many0 .space, .one (.anyOf ['+', '-', '*', '/']),
      .many0 .space, .many1 .digit, .many0 .space, .lit (strL "="), .many0 .space,
      .many1 .digit, .wb],
    [.wb, .many1 .digit, .many0 .space, .one (.anyOf ['+', '-', '*', '/']),
      .many0 .space, .many1 .digit, .wb],
    [.wb, .lit (strL "by definition"), .wb],
    [.wb, .lit (strL "necessarily"), .wb],
    [.wb, .lit (strL "logically"), .wb],
    [.wb, .lit (strL "all"), .many1 .space, .many1 .word, .many1 .space,
      .lit (strL "are"), .wb],
    [.wb, .lit (strL "no"), .many1 .space, .many1 .word, .many1 .space,
      .lit (strL "is"), .wb] ]

/-- `NORMATIVE_PATTERNS`. -/
def NORMATIVE_PATTERNS : List Pattern :=
  [ [.wb, .lit (strL "should"), .wb],
    [.wb, .lit (strL "ought"), .wb],
    [.wb, .lit (strL "must"), .wb],
    [.wb, .lit (strL "need to"), .wb],
    [.wb, .lit (strL "is"), .many1 .space,
      .alt [strL "right", strL "wrong", strL "good", strL "bad", strL "moral",
            strL "immoral"], .wb] ]

/-- The `EpistemicLevel` enum. -/
inductive EpistemicLevel
  | a_priori
  | a_posteriori
  | introspective
  | testimonial
  | normative
  | speculative
deriving DecidableEq

/-- `EpistemicLevel.value` (the enum's string payload). -/
def EpistemicLevel.value : EpistemicLevel → String
  | .a_priori => "a_priori"
  | .a_posteriori => "a_posteriori"
  | .introspective => "introspective"
  | .testimonial => "testimonial"
  | .normative => "normative"
  | .speculative => "speculative"

/-- The `EpistemicSubject` dataclass (`subject_name` is never set by
`detect` and stays `None`). Confidence is in exact hundredths
(`1.0 ↦ 100`, `0.7 ↦ 70`, …). -/
structure EpistemicSubject where
  subject_type : String
  subject_name : Option String := none
  epistemic_level : EpistemicLevel
  confidence : Nat
  access_type : String
  verifiability : String
deriving DecidableEq

/-- A `for pattern in PATTERNS: if re.search(pattern, text_lower): return ...`
loop fires exactly when some pattern in the group matches. -/
def groupMatches (pats : List Pattern) (textLower : Text) : Bool :=
  pats.any (fun p => reSearch p textLower)

/-- `EpistemicSubjectDetector.detect`. -/
def detect (text : Text) : EpistemicSubject :=
  let tl := lower text
  if groupMatches INTROSPECTIVE_PATTERNS tl then
    { subject_type := "self", epistemic_level := .introspective, confidence := 100,
      access_type := "direct", verifiability := "unfalsifiable" }
  else if groupMatches TESTIMONIAL_PATTERNS tl then
    { subject_type := "other", epistemic_level := .testimonial, confidence := 70,
      access_type := "reported", verifiability := "partial" }
  else if groupMatches AUTHORITY_PATTERNS tl then
    { subject_type := "authority", epistemic_level := .a_posteriori, confidence := 85,
      access_type := "reported", verifiability := "verifiable" }
  else if groupMatches APRIORI_PATTERNS tl then
    { subject_type := "universal", epistemic_level := .a_priori, confidence := 100,
      access_type := "direct", verifiability := "verifiable" }
  else if groupMatches NORMATIVE_PATTERNS tl then
    { subject_type := "anonymous", epistemic_level := .normative, confidence := 60,
      access_type := "inferred", verifiability := "partial" }
  else
    { subject_type := "anonymous", epistemic_level := .a_posteriori, confidence := 80,
      access_type := "direct", verifiability := "verifiable" }

/-!
## TTO classifier
-/

/-- Number of a token's keywords occurring as substrings of the lowercased
text (`sum(1 for kw in token.keywords if kw in text_lower)`). -/
def tokenScore (tok : TruthToken) (textLower : Text) : Nat :=
  (tok.keywords.filter (fun kw => containsSub kw textLower)).length

/-- The scan realizing `max(scores, key=scores.get)` over the `scores`
dict restricted to positive scores: Python's `max` keeps the earliest key
attaining the maximum, so a later token replaces the incumbent only on a
strictly larger score. -/
def pickBest (textLower : Text) :
    List TruthToken → Option (TruthToken × Nat) → Option (TruthToken × Nat)
  | [], acc => acc
  | tok :: rest, acc =>
    let s := tokenScore tok textLower
    if s > 0 then
      match acc with
      | none => pickBest textLower rest (some (tok, s))
      | some (_, bs) =>
        if s > bs then pickBest textLower rest (some (tok, s))
        else pickBest textLower rest acc
    else pickBest textLower rest acc

/-- `TTO_TOKENS.get("AtomicFactTT", TTO_TOKENS["UniversalTT"])`: the
`"AtomicFactTT"` key is present, so the fallback lookups are never taken
(the final `.getD` mirrors that `TTO_TOKENS["UniversalTT"]` would raise
rather than produce a value). -/
def defaultToken : TruthToken :=
  ((TTO_TOKENS.find? (fun t => t.symbol == "AtomicFactTT")).getD
    ((TTO_TOKENS.find? (fun t => t.symbol == "UniversalTT")).getD
      ⟨"UniversalTT", .T3_EMPIRICAL_STABLE, "Universal Fact", "Universal truth", []⟩))

/-- The token `TTOClassifier.classify` selects for a text (steps 2–3). -/
def winningToken (text : Text) : TruthToken :=
  match pickBest (lower text) TTO_TOKENS none with
  | some (tok, _) => tok
  | none => defaultToken

/-- The dict returned by `TTOClassifier.classify`. -/
structure Classification where
  symbol : String
  name : String
  tier : Int
  tier_name : String
  resistance : Nat
  epistemic_subject : String
  epistemic_level : String
  verifiability : String
  confidence : Nat
deriving DecidableEq

/-- `TTOClassifier.classify`. -/
def classify (text : Text) : Classification :=
  let epistemic := detect text
  let best_token := winningToken text
  let final_tier :=
    if epistemic.epistemic_level = .introspective then TruthTier.T10_COGNITIVE
    else if epistemic.epistemic_level = .testimonial then TruthTier.T8_TESTIMONIAL
    else if epistemic.epistemic_level = .speculative then TruthTier.T11_SPECULATIVE
    else best_token.tier
  { symbol := best_token.symbol
    name := best_token.name
    tier := final_tier.tier_num
    tier_name := final_tier.tier_name
    resistance := final_tier.resistance
    epistemic_subject := epistemic.subject_type
    epistemic_level := epistemic.epistemic_level.value
    verifiability := epistemic.verifiability
    confidence := epistemic.confidence }

/-!
## Verification cascade

`verification_cascade` is a sequence of tier-banded blocks, each of which
either returns or falls through to the next; we model each block as an
`Option VerificationResult` (`none` = fall through) and chain them in
source order, ending at the `default_pass` result.
-/

/-- The `VerificationResult` dataclass. The `details` dict is modelled as
an association list; its values here are always texts. -/
structure VerificationResult where
  verified : Bool
  confidence : Nat
  method : String
  tier : Int
  resistance : Nat
  details : List (String × Text) := []
deriving DecidableEq

/-- Tautology cue words of the tier-0 block. -/
def TAUTOLOGY_CUES : List Text := [strL "exists", strL "a = a", strL "identical"]

/-- Logical cue words of the tier-1/2 block. -/
def LOGICAL_CUES : List Text :=
  [strL "therefore", strL "thus", strL "implies", strL "if then"]

/-- Scientific/documentary cue words of the tier-3..5 block. -/
def SCIENTIFIC_CUES : List Text :=
  [strL "law", strL "constant", strL "measured", strL "documented", strL "recorded"]

/-- `r'\d+\s*[\+\-\*\/\=]\s*\d+'` of the tier-1/2 block. -/
def MATH_VERIFY_PATTERN : Pattern :=
  [.many1 .digit, .many0 .space, .one (.anyOf ['+', '-', '*', '/', '=']),
   .many0 .space, .many1 .digit]

/-- The `tier == 0` block. -/
def vcT0 (claim : Text) (cls : Classification) : Option VerificationResult :=
  if cls.tier = 0 then
    match check_truth_floor claim with
    | some ax =>
        some ⟨true, 100, "truth_floor_axiom", cls.tier, cls.resistance,
              [("matched_axiom", ax)]⟩
    | none =>
        if TAUTOLOGY_CUES.any (fun kw => containsSub kw (lower claim)) then
          some ⟨true, 100, "tautology", cls.tier, cls.resistance, []⟩
        else none
  else none

/-- The `tier in [1, 2]` block. -/
def vcT1T2 (claim : Text) (cls : Classification) : Option VerificationResult :=
  if cls.tier = 1 ∨ cls.tier = 2 then
    match check_truth_floor claim with
    | some ax =>
        some ⟨true, 99, "truth_floor_constant", cls.tier, cls.resistance,
              [("matched_axiom", ax)]⟩
    | none =>
        if reSearch MATH_VERIFY_PATTERN claim then
          some ⟨true, 95, "mathematical_pattern", cls.tier, cls.resistance, []⟩
        else if LOGICAL_CUES.any (fun kw => containsSub kw (lower claim)) then
          some ⟨true, 90, "logical_pattern", cls.tier, cls.resistance, []⟩
        else none
  else none

/-- The `tier in [3, 4, 5]` block. -/
def vcT3T5 (claim : Text) (cls : Classification) : Option VerificationResult :=
  if cls.tier = 3 ∨ cls.tier = 4 ∨ cls.tier = 5 then
    if SCIENTIFIC_CUES.any (fun kw => containsSub kw (lower claim)) then
      some ⟨true, 85, "pattern_verified", cls.tier, cls.resistance, []⟩
    else none
  else none

/-- The `tier in [6, 7, 8]` block. -/
def vcT6T8 (cls : Classification) : Option VerificationResult :=
  if cls.tier = 6 ∨ cls.tier = 7 ∨ cls.tier = 8 then
    some ⟨true, 70, "context_acknowledged", cls.tier, cls.resistance,
          [("note", strL "Context-dependent claim - confidence limited")]⟩
  else none

/-- The `tier in [9, 10, 11]` block. -/
def vcT9T11 (cls : Classification) : Option VerificationResult :=
  if cls.tier = 9 ∨ cls.tier = 10 ∨ cls.tier = 11 then
    if cls.verifiability = "unfalsifiable" then
      some ⟨true, 50, "epistemic_acknowledgment", cls.tier, cls.resistance,
            [("note", strL "Subjective/speculative - cannot independently verify")]⟩
    else
      some ⟨true, 40, "speculative_flagged", cls.tier, cls.resistance,
            [("note", strL "Flagged as speculative")]⟩
  else none

/-- The `tier == 12` block. -/
def vcT12 (cls : Classification) : Option VerificationResult :=
  if cls.tier = 12 then
    some ⟨false, 0, "integrity_violation_detected", cls.tier, cls.resistance,
          [("note", strL "Potential misinformation - requires full verification")]⟩
  else none

/-- `verification_cascade(claim, classification)` (the `client`/`model`
parameters are unused by the function body and omitted). -/
def verification_cascade (claim : Text) (cls : Classification) : VerificationResult :=
  match vcT0 claim cls with
  | some r => r
  | none =>
  match vcT1T2 claim cls with
  | some r => r
  | none =>
  match vcT3T5 claim cls with
  | some r => r
  | none =>
  match vcT6T8 cls with
  | some r => r
  | none =>
  match vcT9T11 cls with
  | some r => r
  | none =>
  match vcT12 cls with
  | some r => r
  | none => ⟨true, 60, "default_pass", cls.tier, cls.resistance, []⟩

/-!
## Helper lemmas
-/

/-- The source's integer comparison realizes the specification's 60%
threshold exactly. -/
lemma floorAccepts_eq_spec (ax cl : Text) :
    floorAccepts ax cl = specFloorAccepts ax cl := by
  unfold floorAccepts specFloorAccepts
  rw [decide_eq_decide]
  rw [show (0.6 : ℚ) = 3 / 5 by norm_num]
  constructor
  · intro h
    have h' : ((3 * (floorKeywords ax).length : Nat) : ℚ) ≤
        ((5 * floorMatchCount ax cl : Nat) : ℚ) := by exact_mod_cast h
    push_cast at h'
    linarith
  · intro h
    have h' : (3 : ℚ) * ((floorKeywords ax).length : ℚ) ≤
        5 * (floorMatchCount ax cl : ℚ) := by linarith
    exact_mod_cast h'

/-- The scan of `check_truth_floor` returns the first accepted statement. -/
lemma checkFloorList_eq_find (axs : List Text) (cl : Text) :
    checkFloorList axs cl = axs.find? (fun ax => floorAccepts ax cl) := by
  induction axs with
  | nil => rfl
  | cons a t ih =>
    unfold checkFloorList
    by_cases h : floorAccepts a cl
    · simp [h]
    · simp only [Bool.not_eq_true] at h
      simp [h, ih]

/-- Every result produced by the tier-0 block is verified. -/
lemma vcT0_some_verified (claim : Text) (cls : Classification)
    (r : VerificationResult) (h : vcT0 claim cls = some r) : r.verified = true := by
  unfold vcT0 at h
  split at h
  · split at h
    · injection h with h'; rw [← h']
    · split at h
      · injection h with h'; rw [← h']
      · exact absurd h (by simp)
  · exact absurd h (by simp)

/-- Every result produced by the tier-1/2 block is verified. -/
lemma vcT1T2_some_verified (claim : Text) (cls : Classification)
    (r : VerificationResult) (h : vcT1T2 claim cls = some r) : r.verified = true := by
  unfold vcT1T2 at h
  split at h
  · split at h
    · injection h with h'; rw [← h']
    · split at h
      · injection h with h'; rw [← h']
      · split at h
        · injection h with h'; rw [← h']
        · exact absurd h (by simp)
  · exact absurd h (by simp)

/-- Every result produced by the tier-3..5 block is verified. -/
lemma vcT3T5_some_verified (claim : Text) (cls : Classification)
    (r : VerificationResult) (h : vcT3T5 claim cls = some r) : r.verified = true := by
  unfold vcT3T5 at h
  split at h
  · split at h
    · injection h with h'; rw [← h']
    · exact absurd h (by simp)
  · exact absurd h (by simp)

/-- Every result produced by the tier-6..8 block is verified. -/
lemma vcT6T8_some_verified (cls : Classification)
    (r : VerificationResult) (h : vcT6T8 cls = some r) : r.verified = true := by
  unfold vcT6T8 at h
  split at h
  · injection h with h'; rw [← h']
  · exact absurd h (by simp)

/-- Every result produced by the tier-9..11 block is verified. -/
lemma vcT9T11_some_verified (cls : Classification)
    (r : VerificationResult) (h : vcT9T11 cls = some r) : r.verified = true := by
  unfold vcT9T11 at h
  split at h
  · split at h
    · injection h with h'; rw [← h']
    · injection h with h'; rw [← h']
  · exact absurd h (by simp)

/-- The tier-12 block fires only at tier 12. -/
lemma vcT12_none_of_ne (cls : Classification) (h : cls.tier ≠ 12) :
    vcT12 cls = none := by
  unfold vcT12
  simp [h]

/-- At tier 12 the cascade's earlier blocks all fall through, and the
tier-12 block returns the integrity-violation result. -/
lemma cascade_at_t12 (claim : Text) (cls : Classification) (h : cls.tier = 12) :
    verification_cascade claim cls =
      ⟨false, 0, "integrity_violation_detected", cls.tier, cls.resistance,
       [("note", strL "Potential misinformation - requires full verification")]⟩ := by
  unfold verification_cascade vcT0 vcT1T2 vcT3T5 vcT6T8 vcT9T11 vcT12
  rw [h]
  simp

/-- Away from tier 12, every path through the cascade verifies. -/
lemma cascade_verified_of_ne (claim : Text) (cls : Classification)
    (h : cls.tier ≠ 12) : (verification_cascade claim cls).verified = true := by
  unfold verification_cascade
  cases h0 : vcT0 claim cls with
  | some r => simp only [h0]; exact vcT0_some_verified claim cls r h0
  | none =>
  simp only [h0]
  cases h1 : vcT1T2 claim cls with
  | some r => simp only [h1]; exact vcT1T2_some_verified claim cls r h1
  | none =>
  simp only [h1]
  cases h2 : vcT3T5 claim cls with
  | some r => simp only [h2]; exact vcT3T5_some_verified claim cls r h2
  | none =>
  simp only [h2]
  cases h3 : vcT6T8 cls with
  | some r => simp only [h3]; exact vcT6T8_some_verified cls r h3
  | none =>
  simp only [h3]
  cases h4 : vcT9T11 cls with
  | some r => simp only [h4]; exact vcT9T11_some_verified cls r h4
  | none =>
  simp only [h4, vcT12_none_of_ne cls h]

/-- When every token scores zero, the selection scan keeps its accumulator. -/
lemma pickBest_of_all_zero (tl : Text) (toks : List TruthToken)
    (h : ∀ tok ∈ toks, tokenScore tok tl = 0) :
    ∀ acc, pickBest tl toks acc = acc := by
  induction toks with
  | nil => intro acc; rfl
  | cons t ts ih =>
    intro acc
    unfold pickBest
    have ht : tokenScore t tl = 0 := h t (by simp)
    simp only [ht]
    simp only [Nat.lt_irrefl, if_false]
    exact ih (fun tok hm => h tok (by simp [hm])) acc

/-!
## The claims
-/

/-- C1, counterexample: contrary to the claim, classifying
`"My friend said Bitcoin will hit $200k this year."` does NOT yield
epistemic level `"testimonial"` together with final tier 8: no testimonial
regex matches the sentence (the pronoun patterns need `he/she/they/it`
before the reporting verb, and `\b\w+\s+says\b` needs present-tense
`says`, not `said`). -/
theorem C1_counterexample :
    ¬ ((classify (strL "My friend said Bitcoin will hit $200k this year.")).epistemic_level
         = "testimonial" ∧
       (classify (strL "My friend said Bitcoin will hit $200k this year.")).tier = 8) := by
  decide

/-- C1, amended: classifying
`"My friend said Bitcoin will hit $200k this year."` yields epistemic
level `"a_posteriori"` (the detector's default) and final tier 3,
`Empirical-Stable`, the tier of the winning default-scored `AtomicFactTT`
token. -/
theorem C1_amended :
    (classify (strL "My friend said Bitcoin will hit $200k this year.")).epistemic_level
      = "a_posteriori" ∧
    (classify (strL "My friend said Bitcoin will hit $200k this year.")).tier = 3 ∧
    (classify (strL "My friend said Bitcoin will hit $200k this year.")).tier_name
      = "Empirical-Stable" ∧
    (classify (strL "My friend said Bitcoin will hit $200k this year.")).symbol
      = "AtomicFactTT" := by
  decide

/-- C2: for every claim text and every classification whose tier is 12,
the verification cascade returns `verified = false`, confidence 0
(the exact value `0.0`), and method `"integrity_violation_detected"`,
regardless of the claim's lexical content. -/
theorem C2_tier12_never_verifies (claim : Text) (cls : Classification)
    (h : cls.tier = 12) :
    (verification_cascade claim cls).verified = false ∧
    (verification_cascade claim cls).confidence = 0 ∧
    (verification_cascade claim cls).method = "integrity_violation_detected" := by
  rw [cascade_at_t12 claim cls h]
  exact ⟨rfl, rfl, rfl⟩

/-- Witness for C2 at a concrete claim and tier-12 classification. -/
theorem C2_tier12_never_verifies_witness :
    (verification_cascade (strL "The earth is flat")
        ⟨"FalseTT", "False", 12, "Integrity Violation", 1000, "anonymous",
         "a_posteriori", "verifiable", 80⟩).verified = false ∧
    (verification_cascade (strL "The earth is flat")
        ⟨"FalseTT", "False", 12, "Integrity Violation", 1000, "anonymous",
         "a_posteriori", "verifiable", 80⟩).confidence = 0 ∧
    (verification_cascade (strL "The earth is flat")
        ⟨"FalseTT", "False", 12, "Integrity Violation", 1000, "anonymous",
         "a_posteriori", "verifiable", 80⟩).method = "integrity_violation_detected" :=
  C2_tier12_never_verifies (strL "The earth is flat")
    ⟨"FalseTT", "False", 12, "Integrity Violation", 1000, "anonymous",
     "a_posteriori", "verifiable", 80⟩ rfl

/-- C3: axiom matching lowercases the claim and returns the first Truth
Floor statement, in registry order, at least 60% of whose keyword set
(its lowercased words minus the stop words) is present in the lowercased
claim; in particular `"Energy is conserved"` and `"ENERGY IS CONSERVED"`
match the same statement. -/
theorem C3_floor_matching :
    (∀ claim : Text,
      check_truth_floor claim =
        TRUTH_FLOOR.find? (fun ax => specFloorAccepts ax (lower claim))) ∧
    check_truth_floor (strL "Energy is conserved")
      = some (strL "Energy is conserved") ∧
    check_truth_floor (strL "ENERGY IS CONSERVED")
      = some (strL "Energy is conserved") := by
  refine ⟨fun claim => ?_, by decide, by decide⟩
  rw [check_truth_floor, checkFloorList_eq_find]
  have hfun : (fun ax => floorAccepts ax (lower claim)) =
      (fun ax => specFloorAccepts ax (lower claim)) :=
    funext fun ax => floorAccepts_eq_spec ax (lower claim)
  rw [hfun]

/-- C4: the epistemic subject detector evaluates its pattern groups in the
fixed order introspective, testimonial, authority, a-priori, normative
against the lowercased text, returns on the first matching group with
exactly the per-group field values of the specification (confidence in
hundredths), and falls back to the anonymous a-posteriori default when no
group matches; no scoring or combination across groups occurs. -/
theorem C4_detect_priority (text : Text) :
    (groupMatches INTROSPECTIVE_PATTERNS (lower text) = true →
      detect text = ⟨"self", none, .introspective, 100, "direct", "unfalsifiable"⟩) ∧
    (groupMatches INTROSPECTIVE_PATTERNS (lower text) = false →
      groupMatches TESTIMONIAL_PATTERNS (lower text) = true →
      detect text = ⟨"other", none, .testimonial, 70, "reported", "partial"⟩) ∧
    (groupMatches INTROSPECTIVE_PATTERNS (lower text) = false →
      groupMatches TESTIMONIAL_PATTERNS (lower text) = false →
      groupMatches AUTHORITY_PATTERNS (lower text) = true →
      detect text = ⟨"authority", none, .a_posteriori, 85, "reported", "verifiable"⟩) ∧
    (groupMatches INTROSPECTIVE_PATTERNS (lower text) = false →
      groupMatches TESTIMONIAL_PATTERNS (lower text) = false →
      groupMatches AUTHORITY_PATTERNS (lower text) = false →
      groupMatches APRIORI_PATTERNS (lower text) = true →
      detect text = ⟨"universal", none, .a_priori, 100, "direct", "verifiable"⟩) ∧
    (groupMatches INTROSPECTIVE_PATTERNS (lower text) = false →
      groupMatches TESTIMONIAL_PATTERNS (lower text) = false →
      groupMatches AUTHORITY_PATTERNS (lower text) = false →
      groupMatches APRIORI_PATTERNS (lower text) = false →
      groupMatches NORMATIVE_PATTERNS (lower text) = true →
      detect text = ⟨"anonymous", none, .normative, 60, "inferred", "partial"⟩) ∧
    (groupMatches INTROSPECTIVE_PATTERNS (lower text) = false →
      groupMatches TESTIMONIAL_PATTERNS (lower text) = false →
      groupMatches AUTHORITY_PATTERNS (lower text) = false →
      groupMatches APRIORI_PATTERNS (lower text) = false →
      groupMatches NORMATIVE_PATTERNS (lower text) = false →
      detect text = ⟨"anonymous", none, .a_posteriori, 80, "direct", "verifiable"⟩) := by
  refine ⟨?_, ?_, ?_, ?_, ?_, ?_⟩
  · intro h1; unfold detect; simp [h1]
  · intro h1 h2; unfold detect; simp [h1, h2]
  · intro h1 h2 h3; unfold detect; simp [h1, h2, h3]
  · intro h1 h2 h3 h4; unfold detect; simp [h1, h2, h3, h4]
  · intro h1 h2 h3 h4 h5; unfold detect; simp [h1, h2, h3, h4, h5]
  · intro h1 h2 h3 h4 h5; unfold detect; simp [h1, h2, h3, h4, h5]

/-- Witness for C4: the spec's own introspective example fires the first
group, and a neutral sentence falls through to the default. -/
theorem C4_detect_priority_witness :
    detect (strL "I think chocolate is the best flavor.")
      = ⟨"self", none, .introspective, 100, "direct", "unfalsifiable"⟩ ∧
    detect (strL "hello world")
      = ⟨"anonymous", none, .a_posteriori, 80, "direct", "verifiable"⟩ :=
  ⟨(C4_detect_priority (strL "I think chocolate is the best flavor.")).1 (by decide),
   (C4_detect_priority (strL "hello world")).2.2.2.2.2
     (by decide) (by decide) (by decide) (by decide) (by decide)⟩

/-- C5: the classifier's final tier comes from the winning token's native
tier via the ordered override — introspective forces tier 10
(Cognitive/Subjective); else testimonial forces tier 8 (Testimonial); else
speculative forces tier 11 (Speculative); otherwise the native tier is
kept. -/
theorem C5_tier_override (text : Text) :
    ((detect text).epistemic_level = .introspective →
      (classify text).tier = 10 ∧
      (classify text).tier_name = "Cognitive/Subjective") ∧
    ((detect text).epistemic_level ≠ .introspective →
      (detect text).epistemic_level = .testimonial →
      (classify text).tier = 8 ∧
      (classify text).tier_name = "Testimonial") ∧
    ((detect text).epistemic_level ≠ .introspective →
      (detect text).epistemic_level ≠ .testimonial →
      (detect text).epistemic_level = .speculative →
      (classify text).tier = 11 ∧
      (classify text).tier_name = "Speculative") ∧
    ((detect text).epistemic_level ≠ .introspective →
      (detect text).epistemic_level ≠ .testimonial →
      (detect text).epistemic_level ≠ .speculative →
      (classify text).tier = (winningToken text).tier.tier_num ∧
      (classify text).tier_name = (winningToken text).tier.tier_name) := by
  refine ⟨?_, ?_, ?_, ?_⟩
  · intro h1
    unfold classify
    simp [h1, TruthTier.tier_num, TruthTier.tier_name]
  · intro h1 h2
    unfold classify
    simp [h1, h2, TruthTier.tier_num, TruthTier.tier_name]
  · intro h1 h2 h3
    unfold classify
    simp [h1, h2, h3, TruthTier.tier_num, TruthTier.tier_name]
  · intro h1 h2 h3
    unfold classify
    simp [h1, h2, h3]

/-- Witness for C5: an introspective sentence is forced to tier 10, and an
authority-framed sentence keeps its token's native tier. -/
theorem C5_tier_override_witness :
    ((classify (strL "I think chocolate is the best flavor.")).tier = 10 ∧
     (classify (strL "I think chocolate is the best flavor.")).tier_name
       = "Cognitive/Subjective") ∧
    ((classify (strL "Scientists believe climate change is real.")).tier
        = (winningToken (strL "Scientists believe climate change is real.")).tier.tier_num ∧
     (classify (strL "Scientists believe climate change is real.")).tier_name
        = (winningToken (strL "Scientists believe climate change is real.")).tier.tier_name) :=
  ⟨(C5_tier_override (strL "I think chocolate is the best flavor.")).1 (by decide),
   (C5_tier_override (strL "Scientists believe climate change is real.")).2.2.2
     (by decide) (by decide) (by decide)⟩

/-- C6: across the 13 tiers, resistance (in exact thousandths) is
monotonically non-decreasing in tier rank, the tier of rank `i` carries
tier number `i`, and the endpoints are `0.000 ↦ 0` at T0 and
`1.000 ↦ 1000` at T12. -/
theorem C6_resistance_monotone :
    (∀ i j : Fin 13, i ≤ j →
      (tierOfRank i).resistance ≤ (tierOfRank j).resistance) ∧
    (∀ i : Fin 13, (tierOfRank i).tier_num = (i.val : Int)) ∧
    (tierOfRank 0).resistance = 0 ∧ (tierOfRank 12).resistance = 1000 := by
  decide

/-- Witness for C6 at the extreme ranks. -/
theorem C6_resistance_monotone_witness :
    (tierOfRank 0).resistance ≤ (tierOfRank 12).resistance :=
  C6_resistance_monotone.1 0 12 (by decide)

/-- C7: classifying `"2 + 2 = 4"` yields a final tier in `{0, 1}` (it is
1, Mathematical), and the verification cascade on that input and
classification returns a method among `"truth_floor_constant"` and
`"mathematical_pattern"` (it is the latter) with confidence at least
`0.90 ↦ 90` hundredths (it is `0.95 ↦ 95`). -/
theorem C7_arithmetic_example :
    ((classify (strL "2 + 2 = 4")).tier = 0 ∨
     (classify (strL "2 + 2 = 4")).tier = 1) ∧
    ((verification_cascade (strL "2 + 2 = 4") (classify (strL "2 + 2 = 4"))).method
        = "truth_floor_constant" ∨
     (verification_cascade (strL "2 + 2 = 4") (classify (strL "2 + 2 = 4"))).method
        = "mathematical_pattern") ∧
    90 ≤ (verification_cascade (strL "2 + 2 = 4")
            (classify (strL "2 + 2 = 4"))).confidence := by
  decide

/-- C8: whenever no token keyword matches the lowercased text, the
classifier still returns (it is a total function), and the winning token
is the fixed default `AtomicFactTT`. -/
theorem C8_default_token (text : Text)
    (h : ∀ tok ∈ TTO_TOKENS, tokenScore tok (lower text) = 0) :
    (classify text).symbol = "AtomicFactTT" ∧
    (classify text).name = "Atomic Fact" := by
  have hw : winningToken text = defaultToken := by
    unfold winningToken
    rw [pickBest_of_all_zero (lower text) TTO_TOKENS h none]
  unfold classify
  rw [hw]
  exact ⟨rfl, rfl⟩

/-- Witness for C8 at the empty string, where no keyword can match. -/
theorem C8_default_token_witness :
    (classify (strL "")).symbol = "AtomicFactTT" ∧
    (classify (strL "")).name = "Atomic Fact" :=
  C8_default_token (strL "") (by decide)

/-- C9: for every claim text and classification, the cascade verifies
whenever the tier lies in `0..11`, and `verified = false` holds exactly
when the tier is 12. -/
theorem C9_verified_iff_tier12 (claim : Text) (cls : Classification) :
    (0 ≤ cls.tier ∧ cls.tier ≤ 11 →
      (verification_cascade claim cls).verified = true) ∧
    ((verification_cascade claim cls).verified = false ↔ cls.tier = 12) := by
  constructor
  · intro h
    exact cascade_verified_of_ne claim cls (by omega)
  · constructor
    · intro hv
      by_contra hne
      rw [cascade_verified_of_ne claim cls hne] at hv
      exact Bool.noConfusion hv
    · intro h
      rw [cascade_at_t12 claim cls h]

/-- Witness for C9 at a concrete tier-3 classification. -/
theorem C9_verified_iff_tier12_witness :
    (verification_cascade (strL "water is wet")
        ⟨"AtomicFactTT", "Atomic Fact", 3, "Empirical-Stable", 10, "anonymous",
         "a_posteriori", "verifiable", 80⟩).verified = true :=
  (C9_verified_iff_tier12 (strL "water is wet")
      ⟨"AtomicFactTT", "Atomic Fact", 3, "Empirical-Stable", 10, "anonymous",
       "a_posteriori", "verifiable", 80⟩).1 (by decide)

/-- C10: the epistemic subject detector never returns the speculative
level, so no classification record carries epistemic level
`"speculative"` (the classifier's speculative-override branch can never
fire). -/
theorem C10_never_speculative (text : Text) :
    (detect text).epistemic_level ≠ .speculative ∧
    (classify text).epistemic_level ≠ "speculative" := by
  have hd : (detect text).epistemic_level ≠ .speculative := by
    unfold detect
    dsimp only
    split_ifs <;> simp
  refine ⟨hd, ?_⟩
  have hc : (classify text).epistemic_level = (detect text).epistemic_level.value := by
    unfold classify
    rfl
  rw [hc]
  cases hl : (detect text).epistemic_level
  case speculative => exact absurd hl hd
  all_goals simp [EpistemicLevel.value]

end Sovereign
